import Mathlib

/-!
Shallow embedding of the `multicom` repository (files `sdt.py` and
`multicom.py`): a serial-device line monitor. We embed the device
configuration model, the Serial/Socket device constructors, the device
resolution loop of the main program, the line framer
(`_read_line_raw` = pyserial `read_until` + `bytes.rstrip` + UTF-8
decode with replacement), and the select-based multiplex loop.

Python strings are Lean `String`, Python `bytes` are `List Nat` (each
entry < 256 on real inputs), YAML values are the inductive `YVal`.
External effects (filesystem globbing, opening a serial port, regex
compilation/substitution) are parameters collected in `Env`.
-/

/-- A decoded YAML configuration value as consumed by the program:
strings, numbers, lists of strings, and string-to-string mappings. -/
inductive YVal where
  | s (v : String)
  | i (v : Int)
  | list (vs : List String)
  | map (kvs : List (String × String))
deriving DecidableEq, Repr

/-- A per-device configuration: an association list from key to value,
standing for the YAML mapping for one device name. -/
def Config : Type := List (String × YVal)

instance : DecidableEq Config := by
  unfold Config
  infer_instance

/-- Python-level exceptions raised by device construction.
`noDevice`, `configParse` and `inputDevice` embed the exceptions
`NoDeviceError`, `ConfigParseError` and `InputDeviceError` defined in
the repository;
`notImplemented`, `attributeErr`, `regexErr` and `typeErr` embed the
builtin `NotImplementedError`, `AttributeError`, `re.error` and
`TypeError`, none of which is a subclass of `InputDeviceError`. -/
inductive PyErr where
  | noDevice
  | configParse (msg : String)
  | inputDevice (msg : String)
  | notImplemented (msg : String)
  | attributeErr (msg : String)
  | regexErr (msg : String)
  | typeErr (msg : String)
deriving DecidableEq, Repr

instance {ε α : Type} [DecidableEq ε] [DecidableEq α] : DecidableEq (Except ε α) := fun x y =>
  match x, y with
  | Except.error a, Except.error b =>
    if h : a = b then Decidable.isTrue (by rw [h])
    else Decidable.isFalse (fun hh => h (by injection hh))
  | Except.error _, Except.ok _ => Decidable.isFalse (fun hh => Except.noConfusion hh)
  | Except.ok _, Except.error _ => Decidable.isFalse (fun hh => Except.noConfusion hh)
  | Except.ok a, Except.ok b =>
    if h : a = b then Decidable.isTrue (by rw [h])
    else Decidable.isFalse (fun hh => h (by injection hh))

/-- The external world the program runs against: `glob.glob`,
`serial.Serial` construction (`some msg` = raised `SerialException`
with that message, `none` = success), `re.compile` validity, and
`re.sub`. -/
structure Env where
  fsGlob : String → List String
  openSerial : String → Option String
  regexOk : String → Bool
  regexSub : String → String → String → String

/-- Key lookup in a device configuration (`config[key]`, with `none`
standing for a raised `KeyError`). -/
def cfgGet : Config → String → Option YVal
  | [], _ => none
  | (k, v) :: rest, key => if k = key then some v else cfgGet rest key

/-! ## Byte-level line framing -/

/-- pyserial `Serial.read_until(expected)`: bytes arrive one at a time
from `data` (the bytes available before the read timeout) and are
appended to the accumulator; reading stops as soon as the accumulator
ends with the terminator, or when the stream is exhausted (timeout). -/
def readUntil (term : List Nat) : List Nat → List Nat → List Nat
  | acc, [] => acc
  | acc, b :: rest =>
    let acc2 := acc ++ [b]
    if term.isSuffixOf acc2 then acc2 else readUntil term acc2 rest

/-- Python `bytes.rstrip(term)`: remove all trailing bytes that are
members of the byte set `term` (not trailing occurrences of `term` as a
sequence). -/
def rstripSet (bs term : List Nat) : List Nat :=
  (bs.reverse.dropWhile (fun b => term.contains b)).reverse

/-- The strip step as the spec reads it: remove exactly one trailing
occurrence of the terminator sequence, if present; used to compare the
words of the spec against the `bytes.rstrip` call in the code. -/
def stripOneTrailing (bs term : List Nat) : List Nat :=
  if term ≠ [] ∧ term.isSuffixOf bs then bs.take (bs.length - term.length) else bs

/-! ## UTF-8 encoding and decoding

`utf8Next` consumes one UTF-8 sequence (or one maximal subpart of an
invalid sequence, per the WHATWG algorithm that the CPython replace
error handler follows) and returns the decoded character (`none` on an
invalid subpart) plus the remaining bytes. -/

/-- Standard UTF-8 encoding of one character. -/
def utf8EncodeChar (c : Char) : List Nat :=
  let n := c.toNat
  if n < 0x80 then [n]
  else if n < 0x800 then [0xC0 + n / 64, 0x80 + n % 64]
  else if n < 0x10000 then [0xE0 + n / 4096, 0x80 + (n / 64) % 64, 0x80 + n % 64]
  else [0xF0 + n / 262144, 0x80 + (n / 4096) % 64, 0x80 + (n / 64) % 64, 0x80 + n % 64]

/-- Python `str.encode` with the UTF-8 codec. -/
def utf8Encode (s : String) : List Nat :=
  (s.data.map utf8EncodeChar).flatten

/-- Is `b` a UTF-8 continuation byte (`0x80..0xBF`)? -/
def utf8Cont (b : Nat) : Bool :=
  0x80 ≤ b && b ≤ 0xBF

/-- Decode one UTF-8 sequence from the front of the byte list: `some c`
with the rest on success, `none` with the bytes after the maximal
subpart on an invalid sequence. On `[]` returns `(none, [])`. -/
def utf8Next : List Nat → Option Char × List Nat
  | [] => (none, [])
  | b :: rest =>
    if b < 0x80 then
      (some (Char.ofNat b), rest)
    else if 0xC2 ≤ b && b ≤ 0xDF then
      match rest with
      | [] => (none, [])
      | b1 :: rest1 =>
        if utf8Cont b1 then (some (Char.ofNat ((b - 0xC0) * 64 + (b1 - 0x80))), rest1)
        else (none, rest)
    else if 0xE0 ≤ b && b ≤ 0xEF then
      let lo1 := if b = 0xE0 then 0xA0 else 0x80
      let hi1 := if b = 0xED then 0x9F else 0xBF
      match rest with
      | [] => (none, [])
      | b1 :: rest1 =>
        if lo1 ≤ b1 && b1 ≤ hi1 then
          match rest1 with
          | [] => (none, [])
          | b2 :: rest2 =>
            if utf8Cont b2 then
              (some (Char.ofNat ((b - 0xE0) * 4096 + (b1 - 0x80) * 64 + (b2 - 0x80))), rest2)
            else (none, rest1)
        else (none, rest)
    else if 0xF0 ≤ b && b ≤ 0xF4 then
      let lo1 := if b = 0xF0 then 0x90 else 0x80
      let hi1 := if b = 0xF4 then 0x8F else 0xBF
      match rest with
      | [] => (none, [])
      | b1 :: rest1 =>
        if lo1 ≤ b1 && b1 ≤ hi1 then
          match rest1 with
          | [] => (none, [])
          | b2 :: rest2 =>
            if utf8Cont b2 then
              match rest2 with
              | [] => (none, [])
              | b3 :: rest3 =>
                if utf8Cont b3 then
                  (some (Char.ofNat ((b - 0xF0) * 262144 + (b1 - 0x80) * 4096 +
                    (b2 - 0x80) * 64 + (b3 - 0x80))), rest3)
                else (none, rest2)
            else (none, rest1)
        else (none, rest)
    else (none, rest)

/-- The Unicode replacement character U+FFFD. -/
def replacementChar : Char := Char.ofNat 0xFFFD

/-- Fuel-indexed UTF-8 decoding with byte replacement: each invalid
maximal subpart becomes one replacement character. Fuel bounds the
number of decoded characters; `utf8DecodeReplace` supplies enough. -/
def utf8DecodeReplaceGo : Nat → List Nat → List Char
  | 0, _ => []
  | _, [] => []
  | fuel + 1, b :: rest =>
    match utf8Next (b :: rest) with
    | (some c, rest2) => c :: utf8DecodeReplaceGo fuel rest2
    | (none, rest2) => replacementChar :: utf8DecodeReplaceGo fuel rest2

/-- Python `bytes.decode` with the UTF-8 codec and the replace error
handler. -/
def utf8DecodeReplace (bs : List Nat) : List Char :=
  utf8DecodeReplaceGo bs.length bs

/-- Fuel-indexed strict UTF-8 decoding: `none` on the first invalid
sequence (a raised `UnicodeDecodeError`). -/
def utf8DecodeStrictGo : Nat → List Nat → Option (List Char)
  | 0, _ => some []
  | _, [] => some []
  | fuel + 1, b :: rest =>
    match utf8Next (b :: rest) with
    | (some c, rest2) => (utf8DecodeStrictGo fuel rest2).map (fun cs => c :: cs)
    | (none, _) => none

/-- Python `bytes.decode` with the UTF-8 codec and the default strict
handler. -/
def utf8DecodeStrict (bs : List Nat) : Option (List Char) :=
  utf8DecodeStrictGo bs.length bs

/-! ## Escaped terminator decoding -/

/-- The CPython `unicode_escape` codec on the escape forms reachable from
an `endline` configuration string: single-character escapes are decoded,
an unrecognized escape keeps the backslash (numeric escapes are outside
the configurations considered). -/
def unicodeUnescape : List Char → List Char
  | [] => []
  | '\\' :: c :: rest =>
    (match c with
     | 'n' => ['\n']
     | 'r' => ['\r']
     | 't' => ['\t']
     | 'a' => ['\x07']
     | 'b' => ['\x08']
     | 'f' => ['\x0c']
     | 'v' => ['\x0b']
     | '0' => ['\x00']
     | '\\' => ['\\']
     | '\x27' => ['\x27']
     | '"' => ['"']
     | other => ['\\', other]) ++ unicodeUnescape rest
  | c :: rest => c :: unicodeUnescape rest

/-- The full `endline` processing of `SerialInputDevice.__init__`:
encode as UTF-8, decode with the `unicode_escape` codec, re-encode as
UTF-8
(the intermediate encode is the identity on the character content for
the ASCII configuration strings at hand). -/
def decodeEndline (s : String) : List Nat :=
  utf8Encode (String.mk (unicodeUnescape s.data))

/-- `SerialInputDevice._read_line_raw` up to decoding: the bytes read
until the terminator (or timeout), with all trailing terminator-set
bytes stripped. -/
def readLineRawBytes (stream term : List Nat) : List Nat :=
  rstripSet (readUntil term [] stream) term

/-- `SerialInputDevice._read_line_raw`:
read until the endline, rstrip the endline byte set, decode as UTF-8
with the replace error handler. -/
def readLineRaw (stream term : List Nat) : String :=
  String.mk (utf8DecodeReplace (readLineRawBytes stream term))

example : readUntil [10] [] [104, 105, 10, 120] = [104, 105, 10] := by decide
example : readLineRaw [104, 105, 10, 120] [10] = "hi" := by decide
example : readLineRaw [104, 105, 13, 13, 10] [13, 10] = "hi" := by decide
example : decodeEndline "\\n" = [10] := by decide

/-! ## Device construction -/

/-- A successfully constructed `SerialInputDevice`: its name, display
label, compiled highlight rules (pattern, replacement, in insertion
order), decoded terminator bytes, and the resolved, opened path. -/
structure Device where
  name : String
  label : String
  highlight : List (String × String)
  endline : List Nat
  path : String
deriving DecidableEq, Repr

/-- The highlight-compilation loop of `InputDevice.__init__`: compile
each pattern in mapping order; an invalid pattern raises `re.error`
(uncaught by the resolver). -/
def compileHighlight (env : Env) : List (String × String) → Except PyErr (List (String × String))
  | [] => Except.ok []
  | (p, sub) :: rest =>
    if env.regexOk p then
      (compileHighlight env rest).map (fun hl => (p, sub) :: hl)
    else
      Except.error (PyErr.regexErr ("bad pattern: " ++ p))

/-- `InputDevice.__init__`: the highlight key absent (`KeyError`)
is caught and yields no rules; a present value that is not a mapping
has no `.items` and raises `AttributeError`; a mapping has each key
compiled as a regex in order. -/
def initHighlight (env : Env) (c : Config) : Except PyErr (List (String × String)) :=
  match cfgGet c "highlight" with
  | none => Except.ok []
  | some (YVal.map kvs) => compileHighlight env kvs
  | some _ => Except.error (PyErr.attributeErr "highlight value has no attribute items")

/-- Python string formatting of a configuration value in an error
message (`str(value)`); only the string and integer forms are reached
by the messages considered here. -/
def pyStr : YVal → String
  | YVal.s v => v
  | YVal.i v => toString v
  | YVal.list _ => "[...]"
  | YVal.map _ => "\x7b...\x7d"

/-- The parity translation of `SerialInputDevice.__init__`: a `dict`
lookup whose `KeyError` is converted to `ConfigParseError`; an
unhashable value (list/dict) would raise `TypeError` instead. -/
def translateParity : YVal → Except PyErr String
  | YVal.s "none" => Except.ok "N"
  | YVal.s "even" => Except.ok "E"
  | YVal.s "odd" => Except.ok "O"
  | YVal.s other =>
    Except.error (PyErr.configParse
      ("Invalid parity value: " ++ other ++ ", expected one of: none, even, odd"))
  | YVal.i n =>
    Except.error (PyErr.configParse
      ("Invalid parity value: " ++ toString n ++ ", expected one of: none, even, odd"))
  | _ => Except.error (PyErr.typeErr "unhashable type")

/-- Python iteration over the raw `tty_path` value
(`for pathglob in self.tty_path`): a list yields its elements, a bare
string yields its characters one by one, a mapping yields its keys, and
an integer is not iterable (`TypeError`, uncaught). -/
def iterPatterns : YVal → Except PyErr (List String)
  | YVal.s v => Except.ok (v.data.map Char.toString)
  | YVal.list xs => Except.ok xs
  | YVal.map kvs => Except.ok (kvs.map Prod.fst)
  | YVal.i _ => Except.error (PyErr.typeErr "int object is not iterable")

/-- The glob loop of `SerialInputDevice.__init__`: for each pattern in
order, expand it; zero matches → next pattern; exactly one match → open
it (an open failure raises `InputDeviceError`); two or more matches →
`ConfigParseError` naming the pattern and all matches. If every pattern
had zero matches, `InputDeviceError` listing all patterns (`full` is
the full iterated pattern list, used for that message). -/
def serialOpenLoop (env : Env) : List String → List String → Except PyErr (String × String)
  | [], full =>
    Except.error (PyErr.inputDevice ("No device found for: " ++ " ".intercalate full))
  | p :: rest, full =>
    match env.fsGlob p with
    | [] => serialOpenLoop env rest full
    | [path] =>
      match env.openSerial path with
      | some e => Except.error (PyErr.inputDevice e)
      | none => Except.ok ("Serial TTY, " ++ path, path)
    | paths =>
      Except.error (PyErr.configParse
        ("Ambiguous path " ++ p ++ " matches multiple devices: " ++ " ".intercalate paths))

/-- `str.encode` requires a string; any other value has no
`.encode` and raises `AttributeError` (uncaught). -/
def asStr : YVal → Except PyErr String
  | YVal.s v => Except.ok v
  | _ => Except.error (PyErr.attributeErr "object has no attribute encode")

/-- `SerialInputDevice.__init__` (sdt.py): highlight setup, `tty_path`
detection (`NoDeviceError` when absent), required keys `baud`,
`parity`, `endline`, `timeout_s` in order (`ConfigParseError` naming
the first missing one), terminator decoding, parity translation, then
the ordered glob loop. -/
def serialInit (env : Env) (name : String) (c : Config) : Except PyErr Device :=
  match initHighlight env c with
  | Except.error e => Except.error e
  | Except.ok hl =>
    match cfgGet c "tty_path" with
    | none => Except.error PyErr.noDevice
    | some ttyv =>
      match cfgGet c "baud" with
      | none => Except.error (PyErr.configParse "Missing config key: baud")
      | some _ =>
        match cfgGet c "parity" with
        | none => Except.error (PyErr.configParse "Missing config key: parity")
        | some parityv =>
          match cfgGet c "endline" with
          | none => Except.error (PyErr.configParse "Missing config key: endline")
          | some endlinev =>
            match cfgGet c "timeout_s" with
            | none => Except.error (PyErr.configParse "Missing config key: timeout_s")
            | some _ =>
              match asStr endlinev with
              | Except.error e => Except.error e
              | Except.ok endlineStr =>
                match translateParity parityv with
                | Except.error e => Except.error e
                | Except.ok _ =>
                  match iterPatterns ttyv with
                  | Except.error e => Except.error e
                  | Except.ok pats =>
                    match serialOpenLoop env pats pats with
                    | Except.error e => Except.error e
                    | Except.ok (label, path) =>
                      Except.ok { name := name, label := label, highlight := hl,
                                  endline := decodeEndline endlineStr, path := path }

/-- `SocketInputDevice.__init__`: highlight setup, `tcp_port` detection
(`NoDeviceError` when absent), then an unconditional
`NotImplementedError` — which is not an `InputDeviceError`. -/
def socketInit (env : Env) (_name : String) (c : Config) : Except PyErr Device :=
  match initHighlight env c with
  | Except.error e => Except.error e
  | Except.ok _ =>
    match cfgGet c "tcp_port" with
    | none => Except.error PyErr.noDevice
    | some _ => Except.error (PyErr.notImplemented "TCP sockets not implemented yet")

example :
    serialInit
      { fsGlob := fun p => if p = "/dev/ttyU*" then ["/dev/ttyUSB0"] else [],
        openSerial := fun _ => none, regexOk := fun _ => true,
        regexSub := fun _ _ l => l }
      "devA"
      [("tty_path", YVal.list ["/dev/ttyU*"]), ("baud", YVal.i 9600),
       ("parity", YVal.s "none"), ("endline", YVal.s "\\n"), ("timeout_s", YVal.i 1)] =
    Except.ok { name := "devA", label := "Serial TTY, /dev/ttyUSB0",
                highlight := [], endline := [10], path := "/dev/ttyUSB0" } := by
  decide

/-! ## Device resolution (`__main__` of sdt.py) -/

/-- The two device variants tried, in the fixed priority order of the
list `[SerialInputDevice, SocketInputDevice]` of the main program. -/
inductive Variant where
  | serial
  | socket
deriving DecidableEq, Repr

/-- Dispatch a variant to its constructor. -/
def variantInit : Variant → Env → String → Config → Except PyErr Device
  | Variant.serial => serialInit
  | Variant.socket => socketInit

/-- Outcome of resolving one device name: a live device, a dropped
device (with the diagnostic lines printed along the way), or an
uncaught exception that aborts the whole process. -/
inductive ResolveOutcome where
  | resolved (d : Device) (reports : List String)
  | dropped (reports : List String)
  | crashed (e : PyErr) (reports : List String)
deriving DecidableEq, Repr

/-- Python f-string quoting of a device name between two single-quote
characters (character code 0x27), as in the diagnostic prints of
`__main__`. -/
def quoteName (name : String) : String :=
  "\x27" ++ name ++ "\x27"

/-- The per-device variant loop of `__main__`: try each constructor in
order; `NoDeviceError` is passed over silently, `ConfigParseError` and
`InputDeviceError` are printed (and, `dev` still being `None`, the loop
moves on to the next variant), success breaks out of the loop, and any
other exception propagates uncaught. Also returns the list of variants
whose constructors were actually invoked. -/
def resolveGo (env : Env) (name : String) (c : Config) :
    List Variant → List String → List Variant → ResolveOutcome × List Variant
  | [], reports, attempted => (ResolveOutcome.dropped reports, attempted)
  | v :: vs, reports, attempted =>
    match variantInit v env name c with
    | Except.ok d => (ResolveOutcome.resolved d reports, attempted ++ [v])
    | Except.error PyErr.noDevice => resolveGo env name c vs reports (attempted ++ [v])
    | Except.error (PyErr.configParse m) =>
      resolveGo env name c vs
        (reports ++ ["Failed parsing config for " ++ quoteName name ++ ": " ++ m])
        (attempted ++ [v])
    | Except.error (PyErr.inputDevice m) =>
      resolveGo env name c vs
        (reports ++ ["Failed opening device " ++ quoteName name ++ ": " ++ m])
        (attempted ++ [v])
    | Except.error e => (ResolveOutcome.crashed e reports, attempted ++ [v])

/-- Resolve one named device configuration against the fixed variant
order `[Serial, Socket]`. -/
def resolveDevice (env : Env) (name : String) (c : Config) : ResolveOutcome × List Variant :=
  resolveGo env name c [Variant.serial, Variant.socket] [] []

/-- The device-initialization loop of `__main__` over all configured
devices: resolved devices are collected, dropped devices contribute
only their diagnostics, and an uncaught exception aborts the loop —
devices after it are never initialized. Returns the live devices, the
printed diagnostics, and the uncaught exception if any. -/
def initDevices (env : Env) : List (String × Config) → List Device × List String × Option PyErr
  | [] => ([], [], none)
  | (n, c) :: rest =>
    match resolveDevice env n c with
    | (ResolveOutcome.resolved d reports, _) =>
      let (ds, rs, e) := initDevices env rest
      (d :: ds, reports ++ rs, e)
    | (ResolveOutcome.dropped reports, _) =>
      let (ds, rs, e) := initDevices env rest
      (ds, reports ++ rs, e)
    | (ResolveOutcome.crashed e reports, _) => ([], reports, some e)

/-! ## The multiplex loop (`__main__` read loop) -/

/-- One observable event at the blocking `select.select(devices, [], [])`
call: either the wait returns with the (nonempty) list of ready devices,
or the external interrupt (`KeyboardInterrupt`) arrives. -/
inductive LoopEvent (σ : Type) where
  | ready (reads : List σ)
  | interrupt
deriving DecidableEq, Repr

/-- The lines printed while handling one event: one `read_line()` call
per ready device, in the order the wait reported them. -/
def eventLines {σ : Type} (rl : σ → String) : LoopEvent σ → List String
  | LoopEvent.ready rs => rs.map rl
  | LoopEvent.interrupt => []

/-- The `while True: select; for r in reads: print(r.read_line())` loop
of `__main__`, driven by the sequence of select events: each ready set
is drained in order; on the interrupt the loop prints one empty line
and exits cleanly (`true`); if the event trace ends without an
interrupt the loop is still running (`false`). -/
def multiplexLoop {σ : Type} (rl : σ → String) : List (LoopEvent σ) → List String × Bool
  | [] => ([], false)
  | LoopEvent.ready rs :: rest =>
    let (out, clean) := multiplexLoop rl rest
    (rs.map rl ++ out, clean)
  | LoopEvent.interrupt :: _ => ([""], true)

/-- The highlight pass of `InputDevice.read_line`: apply each
substitution in rule order, later rules seeing earlier output. -/
def applyHighlight (env : Env) (rules : List (String × String)) (line : String) : String :=
  rules.foldl (fun l pr => env.regexSub pr.1 pr.2 l) line

/-- `InputDevice.read_line` for a serial device whose pending stream
bytes are `stream`: frame and decode one line, highlight it, and prefix
the device name. -/
def deviceReadLine (env : Env) (d : Device) (stream : List Nat) : String :=
  d.name ++ ": " ++ applyHighlight env d.highlight (readLineRaw stream d.endline)

example :
    resolveDevice
      { fsGlob := fun _ => [], openSerial := fun _ => none,
        regexOk := fun _ => true, regexSub := fun _ _ l => l }
      "devA" [("tty_path", YVal.list ["/dev/x"])] =
    (ResolveOutcome.dropped
       ["Failed parsing config for \x27devA\x27: Missing config key: baud"],
     [Variant.serial, Variant.socket]) := by
  decide

/-! ## Concrete environments and configurations used in the theorems -/

/-- An environment with no filesystem matches, always-successful opens,
all regexes valid, and identity substitution. -/
def envEmpty : Env :=
  { fsGlob := fun _ => [], openSerial := fun _ => none,
    regexOk := fun _ => true, regexSub := fun _ _ l => l }

/-- A filesystem in which both the literal path `/dev/ttyUSB0` and the
root `/` exist (so globbing either pattern yields exactly itself). -/
def envCharGlob : Env :=
  { fsGlob := fun p =>
      if p = "/" then ["/"] else if p = "/dev/ttyUSB0" then ["/dev/ttyUSB0"] else [],
    openSerial := fun _ => none, regexOk := fun _ => true, regexSub := fun _ _ l => l }

/-- A filesystem in which the glob `/dev/ok*` resolves to one openable
device. -/
def envSerialOk : Env :=
  { fsGlob := fun p => if p = "/dev/ok*" then ["/dev/ttyOK"] else [],
    openSerial := fun _ => none, regexOk := fun _ => true, regexSub := fun _ _ l => l }

/-- A filesystem in which `a*` matches nothing and `b*` matches two
devices. -/
def envAmbiguous : Env :=
  { fsGlob := fun p =>
      if p = "a*" then [] else if p = "b*" then ["/dev/b1", "/dev/b2"] else [],
    openSerial := fun _ => none, regexOk := fun _ => true, regexSub := fun _ _ l => l }

/-- An environment in which the pattern `[` fails to compile as a
regular expression. -/
def envBadRegex : Env :=
  { fsGlob := fun _ => [], openSerial := fun _ => none,
    regexOk := fun p => decide (p ≠ "["), regexSub := fun _ _ l => l }

/-- A complete Serial configuration whose `tty_path` is a bare string
naming an existing path. -/
def confBareString : Config :=
  [("tty_path", YVal.s "/dev/ttyUSB0"), ("baud", YVal.i 9600), ("parity", YVal.s "none"),
   ("endline", YVal.s "\\n"), ("timeout_s", YVal.i 1)]

/-- A Serial configuration missing `baud` (and everything else past
`tty_path`). -/
def confMissingBaud : Config :=
  [("tty_path", YVal.list ["/dev/x"])]

/-- A Socket-only configuration. -/
def confTcp : Config :=
  [("tcp_port", YVal.i 5000)]

/-- A complete, resolvable Serial configuration using `envSerialOk`. -/
def confSerialOk : Config :=
  [("tty_path", YVal.list ["/dev/ok*"]), ("baud", YVal.i 9600), ("parity", YVal.s "none"),
   ("endline", YVal.s "\\n"), ("timeout_s", YVal.i 1)]

/-- A Serial configuration whose second glob pattern is ambiguous under
`envAmbiguous`. -/
def confAmbiguous : Config :=
  [("tty_path", YVal.list ["a*", "b*"]), ("baud", YVal.i 9600), ("parity", YVal.s "none"),
   ("endline", YVal.s "\\n"), ("timeout_s", YVal.i 1)]

/-- A configuration whose `highlight` value is not a mapping. -/
def confBadHighlightVal : Config :=
  [("highlight", YVal.s "oops"), ("tty_path", YVal.list ["/dev/x"])]

/-- A configuration whose `highlight` mapping holds an invalid pattern
after one valid one. -/
def confBadHighlightPat : Config :=
  [("highlight", YVal.map [("ok", "x"), ("[", "y")]), ("tty_path", YVal.list ["/dev/x"])]

/-- A complete Serial configuration whose glob patterns all match
nothing under `envEmpty`. -/
def confNoMatch : Config :=
  [("tty_path", YVal.list ["x*", "y*"]), ("baud", YVal.i 9600), ("parity", YVal.s "none"),
   ("endline", YVal.s "\\n"), ("timeout_s", YVal.i 1)]

/-- A constructed serial device with terminator `\n` and no highlight
rules, as built from `confSerialOk`. -/
def devOk : Device :=
  { name := "devA", label := "Serial TTY, /dev/ttyOK", highlight := [],
    endline := [10], path := "/dev/ttyOK" }

/-! ## Helper lemmas -/

theorem serialOpenLoop_skip_empty (env : Env) (pre rest full : List String)
    (h : ∀ q ∈ pre, env.fsGlob q = []) :
    serialOpenLoop env (pre ++ rest) full = serialOpenLoop env rest full := by
  induction pre with
  | nil => rfl
  | cons p ps ih =>
    have hp : env.fsGlob p = [] := h p (by simp)
    have hps : ∀ q ∈ ps, env.fsGlob q = [] := fun q hq => h q (by simp [hq])
    simp only [List.cons_append, serialOpenLoop, hp]
    exact ih hps

theorem serialOpenLoop_ambiguous (env : Env) (p : String) (rest full : List String)
    (h : 2 ≤ (env.fsGlob p).length) :
    serialOpenLoop env (p :: rest) full =
      Except.error (PyErr.configParse
        ("Ambiguous path " ++ p ++ " matches multiple devices: " ++
          " ".intercalate (env.fsGlob p))) := by
  rcases hg : env.fsGlob p with _ | ⟨x, _ | ⟨y, zs⟩⟩
  · rw [hg] at h
    simp at h
  · rw [hg] at h
    simp at h
  · simp [serialOpenLoop, hg]

theorem dropWhile_head_not_sat {α : Type} (p : α → Bool) (l : List α) (b : α)
    (h : (l.dropWhile p).head? = some b) : p b = false := by
  induction l with
  | nil => simp [List.dropWhile] at h
  | cons x xs ih =>
    rw [List.dropWhile_cons] at h
    cases hx : p x
    · rw [hx] at h
      simp at h
      rw [← h, hx]
    · rw [hx] at h
      simp at h
      exact ih h

theorem rstripSet_split (bs term : List Nat) :
    ∃ junk, bs = rstripSet bs term ++ junk ∧ ∀ b ∈ junk, term.contains b = true := by
  refine ⟨(bs.reverse.takeWhile (fun b => term.contains b)).reverse, ?_, ?_⟩
  · unfold rstripSet
    conv_rhs =>
      rw [← List.reverse_append, List.takeWhile_append_dropWhile, List.reverse_reverse]
  · intro b hb
    rw [List.mem_reverse] at hb
    simpa using List.mem_takeWhile_imp hb

theorem rstripSet_getLast_not_term (bs term : List Nat) (b : Nat)
    (h : (rstripSet bs term).getLast? = some b) : term.contains b = false := by
  unfold rstripSet at h
  rw [List.getLast?_reverse] at h
  exact dropWhile_head_not_sat _ _ _ h

theorem utf8StrictGo_some_replaceGo (fuel : Nat) :
    ∀ bs cs, utf8DecodeStrictGo fuel bs = some cs → utf8DecodeReplaceGo fuel bs = cs := by
  induction fuel with
  | zero =>
    intro bs cs h
    simp [utf8DecodeStrictGo] at h
    simp [utf8DecodeReplaceGo, ← h]
  | succ n ih =>
    intro bs cs h
    cases bs with
    | nil =>
      simp [utf8DecodeStrictGo] at h
      simp [utf8DecodeReplaceGo, ← h]
    | cons b rest =>
      rw [utf8DecodeStrictGo] at h
      rw [utf8DecodeReplaceGo]
      rcases hn : utf8Next (b :: rest) with ⟨c?, rest2⟩
      cases c? with
      | none =>
        rw [hn] at h
        exact Option.noConfusion h
      | some c =>
        rw [hn] at h
        replace h : Option.map (fun l => c :: l) (utf8DecodeStrictGo n rest2) = some cs := h
        show c :: utf8DecodeReplaceGo n rest2 = cs
        cases hs : utf8DecodeStrictGo n rest2 with
        | none =>
          rw [hs] at h
          exact Option.noConfusion h
        | some cs0 =>
          rw [hs] at h
          simp at h
          rw [ih rest2 cs0 hs]
          exact h

theorem utf8StrictGo_none_replaceGo_marker (fuel : Nat) :
    ∀ bs, utf8DecodeStrictGo fuel bs = none →
      replacementChar ∈ utf8DecodeReplaceGo fuel bs := by
  induction fuel with
  | zero =>
    intro bs h
    simp [utf8DecodeStrictGo] at h
  | succ n ih =>
    intro bs h
    cases bs with
    | nil => simp [utf8DecodeStrictGo] at h
    | cons b rest =>
      rw [utf8DecodeStrictGo] at h
      rw [utf8DecodeReplaceGo]
      rcases hn : utf8Next (b :: rest) with ⟨c?, rest2⟩
      cases c? with
      | none =>
        show replacementChar ∈ replacementChar :: utf8DecodeReplaceGo n rest2
        exact List.mem_cons_self _ _
      | some c =>
        rw [hn] at h
        replace h : Option.map (fun l => c :: l) (utf8DecodeStrictGo n rest2) = none := h
        show replacementChar ∈ c :: utf8DecodeReplaceGo n rest2
        cases hs : utf8DecodeStrictGo n rest2 with
        | none => exact List.mem_cons_of_mem _ (ih rest2 hs)
        | some cs0 =>
          rw [hs] at h
          exact Option.noConfusion h

/-! ## Claim theorems -/

/-- C7: a line terminator configured as the two characters backslash
and n decodes to the single newline byte, and the raw byte stream
"hello" followed by that newline byte, framed with this terminator,
yields exactly the line "hello". -/
theorem c7_endline_decode_and_framing_roundtrip :
    decodeEndline "\\n" = [10] ∧
    readLineRaw (utf8Encode "hello" ++ decodeEndline "\\n") (decodeEndline "\\n") = "hello" := by
  decide

/-- C2: with `tty_path` a bare string, `SerialInputDevice.__init__` of
sdt.py iterates the characters of the string as individual glob
patterns — there is no single-element-list normalization. With
`tty_path = "/dev/ttyUSB0"` and that literal path present in the
filesystem, construction opens `/` (the expansion of the first
character) instead of `/dev/ttyUSB0`. -/
theorem c2_bare_string_tty_path_iterates_characters :
    iterPatterns (YVal.s "/dev/ttyUSB0") =
      Except.ok ["/", "d", "e", "v", "/", "t", "t", "y", "U", "S", "B", "0"] ∧
    serialInit envCharGlob "devA" confBareString =
      Except.ok { name := "devA", label := "Serial TTY, /", highlight := [],
                  endline := [10], path := "/" } ∧
    "/" ≠ "/dev/ttyUSB0" := by
  decide

/-- C3 counterexample: with terminator bytes `[13, 10]` and a stream
whose read ends `... 13 13 10`, the code returns "hi" — the byte 13
before the final terminator occurrence, though not part of one trailing
occurrence of the terminator, is stripped, where the claim requires it
preserved ("hi\r"). -/
theorem c3_counterexample_rstrip_not_single_occurrence :
    readUntil [13, 10] [] [104, 105, 13, 13, 10] = [104, 105, 13, 13, 10] ∧
    readLineRawBytes [104, 105, 13, 13, 10] [13, 10] = [104, 105] ∧
    stripOneTrailing (readUntil [13, 10] [] [104, 105, 13, 13, 10]) [13, 10] =
      [104, 105, 13] ∧
    readLineRawBytes [104, 105, 13, 13, 10] [13, 10] ≠
      stripOneTrailing (readUntil [13, 10] [] [104, 105, 13, 13, 10]) [13, 10] := by
  decide

/-- C3 (amended): the framed read returns the bytes read up to the
terminator (or the partial bytes on timeout) with ALL trailing bytes
that are members of the byte set of the terminator removed (Python
`bytes.rstrip` semantics), maximally: what is dropped consists only of
terminator-set bytes, and the kept part never ends in one. -/
theorem c3_amended_strip_all_trailing_terminator_set_bytes (stream term : List Nat) :
    readLineRaw stream term = String.mk (utf8DecodeReplace (readLineRawBytes stream term)) ∧
    (∃ junk, readUntil term [] stream = readLineRawBytes stream term ++ junk ∧
      ∀ b ∈ junk, term.contains b = true) ∧
    (∀ b, (readLineRawBytes stream term).getLast? = some b → term.contains b = false) := by
  refine ⟨rfl, ?_, ?_⟩
  · exact rstripSet_split (readUntil term [] stream) term
  · intro b hb
    exact rstripSet_getLast_not_term _ _ _ hb

/-- C3 amended-claim witness at the counterexample input: the dropped
suffix `[13, 13, 10]` consists of terminator-set bytes, and the kept
line ends in 105, which is not a terminator byte. -/
theorem c3_amended_witness :
    ([13, 10] : List Nat).contains 105 = false ∧
    (∀ b ∈ ([13, 13, 10] : List Nat), ([13, 10] : List Nat).contains b = true) := by
  have h := c3_amended_strip_all_trailing_terminator_set_bytes [104, 105, 13, 13, 10] [13, 10]
  refine ⟨h.2.2 105 (by decide), ?_⟩
  obtain ⟨junk, hj, hmem⟩ := h.2.1
  have e1 : readUntil [13, 10] [] [104, 105, 13, 13, 10] = [104, 105, 13, 13, 10] := by decide
  have e2 : readLineRawBytes [104, 105, 13, 13, 10] [13, 10] = [104, 105] := by decide
  rw [e1, e2] at hj
  have hjunk : junk = [13, 13, 10] := by
    simpa using hj.symm
  rw [hjunk] at hmem
  exact hmem

/-- C8: the decoding step of the framed read is total — it always yields the
replacement-decoded text; it agrees with strict UTF-8 decoding whenever
the bytes are valid, and when strict decoding would raise, the result
instead contains the replacement marker, so a decode failure is never
propagated. -/
theorem c8_read_line_raw_total_decode (stream term : List Nat) :
    readLineRaw stream term = String.mk (utf8DecodeReplace (readLineRawBytes stream term)) ∧
    (∀ cs, utf8DecodeStrict (readLineRawBytes stream term) = some cs →
      readLineRaw stream term = String.mk cs) ∧
    (utf8DecodeStrict (readLineRawBytes stream term) = none →
      replacementChar ∈ (readLineRaw stream term).data) := by
  refine ⟨rfl, ?_, ?_⟩
  · intro cs hcs
    unfold readLineRaw utf8DecodeReplace
    rw [utf8StrictGo_some_replaceGo _ _ _ hcs]
  · intro hnone
    show replacementChar ∈
      utf8DecodeReplaceGo (readLineRawBytes stream term).length (readLineRawBytes stream term)
    exact utf8StrictGo_none_replaceGo_marker _ _ hnone

/-- C8 witness: on valid bytes the read agrees with strict decoding; on
the invalid byte 255 the strict decoder fails and the read contains the
replacement marker instead of propagating a failure. -/
theorem c8_witness :
    readLineRaw [104, 105, 10] [10] = String.mk [Char.ofNat 104, Char.ofNat 105] ∧
    replacementChar ∈ (readLineRaw [104, 255, 10] [10]).data :=
  ⟨(c8_read_line_raw_total_decode [104, 105, 10] [10]).2.1
      [Char.ofNat 104, Char.ofNat 105] (by decide),
   (c8_read_line_raw_total_decode [104, 255, 10] [10]).2.2 (by decide)⟩

/-- C9: driven by any sequence of readiness events none of which is the
interrupt, followed by the interrupt: every iteration maps `read_line`
over exactly the devices reported ready, in order, emitting those lines
before the next wait; the loop exits cleanly (printing one empty line)
exactly at the interrupt, ignoring later events — and without an
interrupt it never leaves the running state. -/
theorem c9_multiplex_drains_ready_exits_only_on_interrupt {σ : Type} (rl : σ → String)
    (pre post : List (LoopEvent σ))
    (hpre : ∀ e ∈ pre, e ≠ LoopEvent.interrupt) :
    multiplexLoop rl (pre ++ LoopEvent.interrupt :: post) =
      ((pre.map (eventLines rl)).flatten ++ [""], true) ∧
    multiplexLoop rl pre = ((pre.map (eventLines rl)).flatten, false) := by
  induction pre with
  | nil => exact ⟨rfl, rfl⟩
  | cons e es ih =>
    have he : e ≠ LoopEvent.interrupt := hpre e (by simp)
    have hes : ∀ x ∈ es, x ≠ LoopEvent.interrupt := fun x hx => hpre x (by simp [hx])
    obtain ⟨ih1, ih2⟩ := ih hes
    cases e with
    | interrupt => exact absurd rfl he
    | ready rs =>
      constructor
      · show (let z := multiplexLoop rl (es ++ LoopEvent.interrupt :: post);
              (rs.map rl ++ z.1, z.2)) = _
        rw [ih1]
        simp [eventLines]
      · show (let z := multiplexLoop rl es; (rs.map rl ++ z.1, z.2)) = _
        rw [ih2]
        simp [eventLines]

/-- C9 witness: one iteration with two ready devices (the second a real
constructed serial device read through `deviceReadLine`), then the
interrupt: both lines print in order, then the clean exit. -/
theorem c9_witness :
    multiplexLoop (fun d => deviceReadLine envSerialOk d [104, 105, 10])
      [LoopEvent.ready [devOk, devOk], LoopEvent.interrupt] =
      (["devA: hi", "devA: hi", ""], true) :=
  Eq.trans
    ((c9_multiplex_drains_ready_exits_only_on_interrupt
        (fun d => deviceReadLine envSerialOk d [104, 105, 10])
        [LoopEvent.ready [devOk, devOk]] [] (by decide)).1)
    (by decide)

/-- C1 counterexample: for the concrete device config
`{tty_path: ["/dev/x"]}` (discriminator present, `baud` missing) the
resolver reports the Serial configuration-error — but does NOT stop:
the list of constructors actually invoked is `[serial, socket]`, so the
Socket variant IS attempted after the configuration-error, contrary to
the claim. -/
theorem c1_counterexample_socket_still_attempted :
    (resolveDevice envEmpty "devA" confMissingBaud).2 = [Variant.serial, Variant.socket] ∧
    (resolveDevice envEmpty "devA" confMissingBaud).1 =
      ResolveOutcome.dropped
        ["Failed parsing config for \x27devA\x27: Missing config key: baud"] := by
  decide

/-- C1 (amended): for every device config with `tty_path` present,
`baud` missing, and no `tcp_port` or `highlight` key, the resolver
reports the Serial configuration-error naming `baud` and drops the
device, but it still attempts the Socket variant afterwards; that
attempt, lacking `tcp_port`, raises only the silent not-this-type
signal, so the observable outcome is the single reported error and the
drop. -/
theorem c1_amended_config_error_reported_socket_still_probed
    (env : Env) (name : String) (c : Config) (v : YVal)
    (hHl : cfgGet c "highlight" = none)
    (hTty : cfgGet c "tty_path" = some v)
    (hBaud : cfgGet c "baud" = none)
    (hTcp : cfgGet c "tcp_port" = none) :
    resolveDevice env name c =
      (ResolveOutcome.dropped
         ["Failed parsing config for " ++ quoteName name ++ ": Missing config key: baud"],
       [Variant.serial, Variant.socket]) := by
  have hs : serialInit env name c =
      Except.error (PyErr.configParse "Missing config key: baud") := by
    simp [serialInit, initHighlight, hHl, hTty, hBaud]
  have hk : socketInit env name c = Except.error PyErr.noDevice := by
    simp [socketInit, initHighlight, hHl, hTcp]
  simp only [resolveDevice, resolveGo, variantInit, hs, hk]
  rw [String.append_assoc]
  rfl

/-- C1 amended-claim witness at the counterexample input. -/
theorem c1_amended_witness :
    resolveDevice envEmpty "devB" confMissingBaud =
      (ResolveOutcome.dropped
         ["Failed parsing config for " ++ quoteName "devB" ++ ": Missing config key: baud"],
       [Variant.serial, Variant.socket]) :=
  c1_amended_config_error_reported_socket_still_probed envEmpty "devB" confMissingBaud
    (YVal.list ["/dev/x"]) (by decide) (by decide) (by decide) (by decide)

/-- C4 counterexample: a `tcp_port` device followed by a perfectly
resolvable Serial device: the `NotImplementedError` is not caught by
the resolver, the process crashes, and the second device — which
resolves fine on its own — is never initialized, contrary to "drops
only that device, leaving resolution of the remaining devices
unaffected". -/
theorem c4_counterexample_not_implemented_aborts_rest :
    initDevices envSerialOk [("devT", confTcp), ("devA", confSerialOk)] =
      ([], [], some (PyErr.notImplemented "TCP sockets not implemented yet")) ∧
    initDevices envSerialOk [("devA", confSerialOk)] = ([devOk], [], none) := by
  decide

/-- C4 (amended): for every device config with `tcp_port` present (and
no `tty_path` or `highlight`), Socket construction fails with the
distinct NotImplementedError, which is not an `InputDeviceError`: the
resolver does not catch it, so instead of a reported per-device drop it
propagates uncaught and aborts initialization of all remaining
devices. -/
theorem c4_amended_not_implemented_uncaught_aborts
    (env : Env) (name : String) (c : Config) (rest : List (String × Config)) (v : YVal)
    (hHl : cfgGet c "highlight" = none)
    (hTty : cfgGet c "tty_path" = none)
    (hTcp : cfgGet c "tcp_port" = some v) :
    resolveDevice env name c =
      (ResolveOutcome.crashed (PyErr.notImplemented "TCP sockets not implemented yet") [],
       [Variant.serial, Variant.socket]) ∧
    initDevices env ((name, c) :: rest) =
      ([], [], some (PyErr.notImplemented "TCP sockets not implemented yet")) := by
  have hs : serialInit env name c = Except.error PyErr.noDevice := by
    simp [serialInit, initHighlight, hHl, hTty]
  have hk : socketInit env name c =
      Except.error (PyErr.notImplemented "TCP sockets not implemented yet") := by
    simp [socketInit, initHighlight, hHl, hTcp]
  have hr : resolveDevice env name c =
      (ResolveOutcome.crashed (PyErr.notImplemented "TCP sockets not implemented yet") [],
       [Variant.serial, Variant.socket]) := by
    simp [resolveDevice, resolveGo, variantInit, hs, hk]
  exact ⟨hr, by simp [initDevices, hr]⟩

/-- C4 amended-claim witness: the crash aborts a nonempty remainder. -/
theorem c4_amended_witness :
    initDevices envSerialOk [("devT", confTcp), ("devA", confSerialOk)] =
      ([], [], some (PyErr.notImplemented "TCP sockets not implemented yet")) :=
  (c4_amended_not_implemented_uncaught_aborts envSerialOk "devT" confTcp
    [("devA", confSerialOk)] (YVal.i 5000) (by decide) (by decide) (by decide)).2

/-- C5: for every Serial device whose patterns reach (after zero-match
patterns) a pattern that expands to two or more filesystem matches,
construction fails immediately with the configuration-error whose
message names the pattern and enumerates every match — and the result
is the same for every possible list of later patterns, so no later
pattern is tried. -/
theorem c5_ambiguous_glob_fails_without_trying_later_patterns
    (env : Env) (name : String) (c : Config) (hl : List (String × String))
    (pre : List String) (p : String) (rest : List String)
    (bv pv tv : YVal) (es pu : String)
    (hHl : initHighlight env c = Except.ok hl)
    (hTty : cfgGet c "tty_path" = some (YVal.list (pre ++ p :: rest)))
    (hBaud : cfgGet c "baud" = some bv)
    (hPar : cfgGet c "parity" = some pv)
    (hEnd : cfgGet c "endline" = some (YVal.s es))
    (hTim : cfgGet c "timeout_s" = some tv)
    (hParOk : translateParity pv = Except.ok pu)
    (hPre : ∀ q ∈ pre, env.fsGlob q = [])
    (hAmb : 2 ≤ (env.fsGlob p).length) :
    serialInit env name c =
      Except.error (PyErr.configParse
        ("Ambiguous path " ++ p ++ " matches multiple devices: " ++
          " ".intercalate (env.fsGlob p))) := by
  have hloop : serialOpenLoop env (pre ++ p :: rest) (pre ++ p :: rest) =
      Except.error (PyErr.configParse
        ("Ambiguous path " ++ p ++ " matches multiple devices: " ++
          " ".intercalate (env.fsGlob p))) := by
    rw [serialOpenLoop_skip_empty env pre (p :: rest) _ hPre,
        serialOpenLoop_ambiguous env p rest _ hAmb]
  simp [serialInit, hHl, hTty, hBaud, hPar, hEnd, hTim, asStr, hParOk, iterPatterns, hloop]

/-- C5 witness: pattern list `["a*", "b*"]` where `a*` matches nothing
and `b*` matches two devices. -/
theorem c5_witness :
    serialInit envAmbiguous "devA" confAmbiguous =
      Except.error (PyErr.configParse
        "Ambiguous path b* matches multiple devices: /dev/b1 /dev/b2") :=
  Eq.trans
    (c5_ambiguous_glob_fails_without_trying_later_patterns envAmbiguous "devA" confAmbiguous
      [] ["a*"] "b*" [] (YVal.i 9600) (YVal.s "none") (YVal.i 1) "\\n" "N"
      (by decide) (by decide) (by decide) (by decide) (by decide) (by decide) (by decide)
      (by decide) (by decide))
    (by decide)

/-- C6: a glob pattern with zero matches is skipped in favor of the
next pattern (the loop continues with the remainder, the full list kept
for the final message), and when every pattern yields zero matches,
construction fails with the device-error listing all attempted
patterns. -/
theorem c6_zero_matches_skip_and_all_zero_device_error :
    (∀ (env : Env) (p : String) (rest full : List String), env.fsGlob p = [] →
      serialOpenLoop env (p :: rest) full = serialOpenLoop env rest full) ∧
    (∀ (env : Env) (name : String) (c : Config) (hl : List (String × String))
        (pats : List String) (bv pv tv : YVal) (es pu : String),
      initHighlight env c = Except.ok hl →
      cfgGet c "tty_path" = some (YVal.list pats) →
      cfgGet c "baud" = some bv →
      cfgGet c "parity" = some pv →
      cfgGet c "endline" = some (YVal.s es) →
      cfgGet c "timeout_s" = some tv →
      translateParity pv = Except.ok pu →
      (∀ q ∈ pats, env.fsGlob q = []) →
      serialInit env name c =
        Except.error (PyErr.inputDevice ("No device found for: " ++ " ".intercalate pats))) := by
  constructor
  · intro env p rest full hp
    simp only [serialOpenLoop, hp]
  · intro env name c hl pats bv pv tv es pu hHl hTty hBaud hPar hEnd hTim hParOk hAll
    have hloop : serialOpenLoop env pats pats =
        Except.error (PyErr.inputDevice ("No device found for: " ++ " ".intercalate pats)) := by
      have hskip := serialOpenLoop_skip_empty env pats [] pats hAll
      rw [List.append_nil] at hskip
      rw [hskip]
      rfl
    simp [serialInit, hHl, hTty, hBaud, hPar, hEnd, hTim, asStr, hParOk, iterPatterns, hloop]

/-- C6 witness: `x*` (no matches) is skipped in favor of `y*`, and with
both empty the device-error lists both attempted patterns. -/
theorem c6_witness :
    serialOpenLoop envEmpty ["x*", "y*"] ["x*", "y*"] =
      serialOpenLoop envEmpty ["y*"] ["x*", "y*"] ∧
    serialInit envEmpty "devA" confNoMatch =
      Except.error (PyErr.inputDevice "No device found for: x* y*") :=
  ⟨c6_zero_matches_skip_and_all_zero_device_error.1 envEmpty "x*" ["y*"] ["x*", "y*"]
      (by decide),
   Eq.trans
     (c6_zero_matches_skip_and_all_zero_device_error.2 envEmpty "devA" confNoMatch
       [] ["x*", "y*"] (YVal.i 9600) (YVal.s "none") (YVal.i 1) "\\n" "N"
       (by decide) (by decide) (by decide) (by decide) (by decide) (by decide) (by decide)
       (by decide))
     (by decide)⟩

theorem compileHighlight_first_bad (env : Env) (pre : List (String × String))
    (p sub : String) (post : List (String × String))
    (hpre : ∀ pr ∈ pre, env.regexOk pr.1 = true)
    (hp : env.regexOk p = false) :
    compileHighlight env (pre ++ (p, sub) :: post) =
      Except.error (PyErr.regexErr ("bad pattern: " ++ p)) := by
  induction pre with
  | nil => simp [compileHighlight, hp]
  | cons q qs ih =>
    have hq : env.regexOk q.1 = true := hpre q (by simp)
    have hqs : ∀ pr ∈ qs, env.regexOk pr.1 = true := fun pr hpr => hpre pr (by simp [hpr])
    obtain ⟨q1, q2⟩ := q
    simp only [List.cons_append, compileHighlight]
    rw [hq]
    simp [ih hqs, Except.map]

/-- C10: a `highlight` value that is not a mapping raises
`AttributeError`, and a mapping containing a key that is not a valid
regular expression raises `re.error`; neither is an
`InputDeviceError`, so the resolver does not catch it: no per-device
drop is reported and initialization of all remaining devices is
aborted. -/
theorem c10_invalid_highlight_uncaught_aborts
    (env : Env) (name : String) (c : Config) (rest : List (String × Config)) :
    (∀ v : YVal, cfgGet c "highlight" = some v → (∀ kvs, v ≠ YVal.map kvs) →
      initDevices env ((name, c) :: rest) =
        ([], [], some (PyErr.attributeErr "highlight value has no attribute items"))) ∧
    (∀ (kvs pre : List (String × String)) (p sub : String)
        (post : List (String × String)),
      cfgGet c "highlight" = some (YVal.map kvs) →
      kvs = pre ++ (p, sub) :: post →
      (∀ pr ∈ pre, env.regexOk pr.1 = true) →
      env.regexOk p = false →
      initDevices env ((name, c) :: rest) =
        ([], [], some (PyErr.regexErr ("bad pattern: " ++ p)))) := by
  constructor
  · intro v hv hnotmap
    have he : initHighlight env c =
        Except.error (PyErr.attributeErr "highlight value has no attribute items") := by
      cases v with
      | s w => simp [initHighlight, hv]
      | i w => simp [initHighlight, hv]
      | list ws => simp [initHighlight, hv]
      | map kvs => exact absurd rfl (hnotmap kvs)
    have hs : serialInit env name c =
        Except.error (PyErr.attributeErr "highlight value has no attribute items") := by
      simp [serialInit, he]
    have hr : resolveDevice env name c =
        (ResolveOutcome.crashed
          (PyErr.attributeErr "highlight value has no attribute items") [],
         [Variant.serial]) := by
      simp [resolveDevice, resolveGo, variantInit, hs]
    simp [initDevices, hr]
  · intro kvs pre p sub post hv hkvs hpre hp
    have he : initHighlight env c =
        Except.error (PyErr.regexErr ("bad pattern: " ++ p)) := by
      rw [initHighlight, hv, hkvs]
      exact compileHighlight_first_bad env pre p sub post hpre hp
    have hs : serialInit env name c =
        Except.error (PyErr.regexErr ("bad pattern: " ++ p)) := by
      simp [serialInit, he]
    have hr : resolveDevice env name c =
        (ResolveOutcome.crashed (PyErr.regexErr ("bad pattern: " ++ p)) [],
         [Variant.serial]) := by
      simp [resolveDevice, resolveGo, variantInit, hs]
    simp [initDevices, hr]

/-- C10 witness: a non-mapping `highlight` value and an invalid pattern
`[` after a valid one, each aborting a nonempty remainder of devices. -/
theorem c10_witness :
    initDevices envBadRegex [("devH", confBadHighlightVal), ("devA", confSerialOk)] =
      ([], [], some (PyErr.attributeErr "highlight value has no attribute items")) ∧
    initDevices envBadRegex [("devH", confBadHighlightPat), ("devA", confSerialOk)] =
      ([], [], some (PyErr.regexErr ("bad pattern: " ++ "["))) :=
  ⟨(c10_invalid_highlight_uncaught_aborts envBadRegex "devH" confBadHighlightVal
      [("devA", confSerialOk)]).1 (YVal.s "oops") (by decide)
      (fun kvs h => YVal.noConfusion h),
   (c10_invalid_highlight_uncaught_aborts envBadRegex "devH" confBadHighlightPat
      [("devA", confSerialOk)]).2 [("ok", "x"), ("[", "y")] [("ok", "x")] "[" "y" []
      (by decide) (by decide) (by decide) (by decide)⟩
